import Mathlib

/-!
Verification of the edge admission-control middleware (`src/middleware.ts`).

The middleware runs once per inbound HTTP request. With a configured Redis
store it applies, in order: a blocked-country check, a `User-Agent`
allow-list check, a per-IP sliding-window rate limit; any denial increments
`attack:blocked` and returns a 403/429 response at once. On the allow path
it increments `attack:total` (arming a 60 s TTL if absent), reads the
counters back, and when the total exceeds the attack threshold and the
`notification_sent_flag` key is falsy it composes a Telegram alert, sends
it, and sets the flag with a 60 s expiry.

The embedding below is a faithful shallow model: Redis becomes an explicit
`Store` record (one field per key the program touches, values plus TTLs;
time decay of TTLs is not modelled, only their arming, which is all the
program manipulates), the sequence of awaited store operations becomes
sequential state passing, and store-call failures (rejected promises) become
`Except.error` propagation, mirroring the absence of any try/catch around
store calls in `middleware`. The external notification send is modelled by
the list of attempted and successfully dispatched messages, with the
interpolated numeric fields of the message text captured in a record.
-/

namespace Middleware

/-- Blocked-country list `BLOCKED_COUNTRIES` from the source: ISO country codes denied outright. -/
def BLOCKED_COUNTRIES : List String :=
  ["VN", "CN", "IN", "PK", "BR", "ID", "TH", "TR", "EG", "SC", "IR", "NG", "RU"]

/-- Allow-list `ALLOWED_USER_AGENTS` from the source: the permitted User-Agent substrings. -/
def ALLOWED_USER_AGENTS : List String :=
  ["Chrome", "Firefox", "Safari", "Edg", "OPR",
   "Googlebot", "Bingbot", "Slurp", "DuckDuckBot", "YandexBot"]

/-- Shape of `INDIVIDUAL_RATE_LIMIT`: requests 10, window 10 s. -/
structure RateLimitConfig where
  requests : Nat
  windowSeconds : Nat
deriving DecidableEq, Repr

def INDIVIDUAL_RATE_LIMIT : RateLimitConfig := { requests := 10, windowSeconds := 10 }

/-- Source constant `ATTACK_THRESHOLD = 10000`. -/
def ATTACK_THRESHOLD : Nat := 10000

/-- Source constant `ATTACK_TIME_WINDOW_SECONDS = 60`. -/
def ATTACK_TIME_WINDOW_SECONDS : Nat := 60

/-- Boolean infix test on character lists: does `needle` occur contiguously
inside the second list? -/
def seqContains (needle : List Char) : List Char → Bool
  | [] => needle.isEmpty
  | c :: rest => needle.isPrefixOf (c :: rest) || seqContains needle rest

/-- JavaScript `haystack.includes(needle)`: case-sensitive substring test. -/
def jsIncludes (haystack needle : String) : Bool :=
  seqContains needle.toList haystack.toList

/-- JavaScript truthiness of a nullable string (null and the empty string are falsy). -/
def jsTruthy : Option String → Bool
  | none => false
  | some s => s != ""

/-- The Redis keys and values the program touches, with their pending TTLs.
TTL decay over time is not modelled; the program only arms TTLs. The
counters hold `Option Nat` (`none` = key absent; `INCR` treats absent as 0,
and only `INCR` ever writes them). `rl` is the rate limiter's per-key state
(kept in the same Redis under the `ratelimit` prefix): an association list
from client key to the timestamps of admitted requests. -/
structure Store where
  total : Option Nat
  totalTTL : Option Nat
  blocked : Option Nat
  blockedTTL : Option Nat
  notifFlag : Option String
  notifTTL : Option Nat
  rl : List (String × List Nat)
deriving DecidableEq, Repr

/-- The empty Redis database. -/
def Store.empty : Store :=
  { total := none, totalTTL := none, blocked := none, blockedTTL := none,
    notifFlag := none, notifTTL := none, rl := [] }

/-- Read a rate-limit log (missing key = empty log). -/
def rlGet (rl : List (String × List Nat)) (key : String) : List Nat :=
  (((rl.find? fun p => p.1 == key).map Prod.snd).getD [])

/-- Write a rate-limit log for a key. -/
def rlSet (rl : List (String × List Nat)) (key : String) (log : List Nat) :
    List (String × List Nat) :=
  (key, log) :: rl

/-- Redis `EXPIRE key ttl NX`: arm a TTL only when the key exists and has no
TTL yet; otherwise leave the TTL untouched. -/
def expireNX (val : Option Nat) (ttl : Option Nat) (seconds : Nat) : Option Nat :=
  if val.isSome && ttl.isNone then some seconds else ttl

/-- The fields `request.ip`, `request.geo?.country` and the `user-agent`
header of the inbound `NextRequest` (each may be absent). -/
structure NextRequest where
  ip : Option String
  country : Option String
  userAgent : Option String
deriving DecidableEq, Repr

/-- The four responses `middleware` can produce, one constructor per
`return` site in the source. -/
inductive Response where
  | next
  | deniedCountry (country : String)
  | deniedUA
  | deniedRate
deriving DecidableEq, Repr

/-- HTTP status of a response (`none` for the pass-through `NextResponse.next()`). -/
def Response.status : Response → Option Nat
  | .next => none
  | .deniedCountry _ => some 403
  | .deniedUA => some 403
  | .deniedRate => some 429

/-- Plain-text body of a response, exactly as in the source. -/
def Response.body : Response → Option String
  | .next => none
  | .deniedCountry c => some ("Access from country " ++ c ++ " is denied.")
  | .deniedUA => some "Your browser or bot is not allowed."
  | .deniedRate => some "Too many requests. Please try again later."

/-- JavaScript `x.toFixed(1)` applied to `n / w`, captured as the number of
tenths: round-half-up of `10 * n / w` (the float-representation corner
cases of IEEE `toFixed` are out of scope of this model). -/
def toFixed1Tenths (n w : Nat) : Nat :=
  (20 * n + w) / (2 * w)

/-- The numeric fields interpolated into the Telegram alert message text:
attack strength (`(totalRequests / ATTACK_TIME_WINDOW_SECONDS).toFixed(1)`,
in tenths), the total and blocked counts, and `passedRequests`. -/
structure Notification where
  strengthTenths : Nat
  total : Nat
  blocked : Nat
  passed : Int
deriving DecidableEq, Repr

/-- The environment variables read by the source, plus fault-injection
switches for the store calls the middleware awaits without any try/catch
(the INCR in `incrementBlockedCounter` and `ratelimit.limit`) and for the
Telegram `fetch` (which IS wrapped in try/catch in the source). -/
structure Env where
  redisConfigured : Bool
  tgToken : Option String
  tgChatId : Option String
  fetchFails : Bool
  failBlockedIncr : Bool
  failRatelimit : Bool
deriving DecidableEq, Repr

/-- Model of `sendTelegramMessage`: skips sending when either credential is falsy
(logging a warning), otherwise performs the `fetch`, whose failure is caught
and logged. Returns the list of messages actually dispatched over HTTP. -/
def sendTelegramMessage (env : Env) (text : Notification) : List Notification :=
  if !(jsTruthy env.tgToken) || !(jsTruthy env.tgChatId) then []
  else if env.fetchFails then []
  else [text]

/-- Model of `incrementBlockedCounter`: an awaited INCR of the key
`attack:blocked` and nothing else. -/
def incrementBlockedCounter (s : Store) : Store :=
  { s with blocked := some (s.blocked.getD 0 + 1) }

/-- The `{ totalRequests, blockedRequests }` record returned by
`getAttackCounters`. -/
structure AttackCounters where
  totalRequests : Nat
  blockedRequests : Nat
deriving DecidableEq, Repr

/-- Model of `getAttackCounters`: a pipeline of `INCR attack:total`,
`EXPIRE attack:total 60 NX`, `GET attack:blocked`,
`EXPIRE attack:blocked 60 NX`, followed by a separate `redis.get` of
`attack:total` whose absent result defaults to 1; `blockedRequests`
parses the blocked read, defaulting to 0 when the key is absent. -/
def getAttackCounters (s : Store) : AttackCounters × Store :=
  let s1 := { s with total := some (s.total.getD 0 + 1) }
  let s2 := { s1 with totalTTL := expireNX s1.total s1.totalTTL ATTACK_TIME_WINDOW_SECONDS }
  let blockedRead := s2.blocked
  let s3 := { s2 with blockedTTL := expireNX s2.blocked s2.blockedTTL ATTACK_TIME_WINDOW_SECONDS }
  let currentTotal := s3.total.getD 1
  (⟨currentTotal, blockedRead.getD 0⟩, s3)

/-- Modelled from the spec: the sliding-window admission test of the
external `@upstash/ratelimit` package (its algorithm is not part of this
repository; only its configuration — capacity 10 per 10 s — and its call
site are). Per the spec contract, it denies when the key's current-window
count would exceed capacity, and otherwise records the request and admits:
admitted timestamps within the trailing window are counted, and an admitted
request appends its timestamp. -/
def slidingWindowLimit (now : Nat) (log : List Nat) : Bool × List Nat :=
  let recent := log.filter fun t =>
    t ≤ now && now < t + INDIVIDUAL_RATE_LIMIT.windowSeconds
  if recent.length < INDIVIDUAL_RATE_LIMIT.requests then (true, now :: log)
  else (false, log)

/-- Result of one `middleware` invocation: the response, the final store,
the messages passed to `sendTelegramMessage`, and those actually
dispatched over HTTP. -/
structure MwResult where
  response : Response
  store : Store
  attempted : List Notification
  dispatched : List Notification
deriving DecidableEq, Repr

/-- The country test of step 1: `country && BLOCKED_COUNTRIES.includes(country)`,
returning the country code when it denies. -/
def blockedCountry (req : NextRequest) : Option String :=
  match req.country with
  | some c => if BLOCKED_COUNTRIES.contains c then some c else none
  | none => none

/-- Model of `middleware(request)`. `now` is the current time in seconds, used only
by the rate limiter. A `.error ()` result is an unhandled rejected promise
propagating out of the middleware (the source has no try/catch around its
store calls). -/
def middleware (env : Env) (req : NextRequest) (now : Nat) (s : Store) :
    Except Unit MwResult :=
  if !env.redisConfigured then .ok ⟨.next, s, [], []⟩
  else
    let ip := req.ip.getD "127.0.0.1"
    let userAgent := req.userAgent.getD ""
    match blockedCountry req with
    | some c =>
      if env.failBlockedIncr then .error ()
      else .ok ⟨.deniedCountry c, incrementBlockedCounter s, [], []⟩
    | none =>
      let isAllowedUserAgent := ALLOWED_USER_AGENTS.any fun agent => jsIncludes userAgent agent
      if !isAllowedUserAgent then
        if env.failBlockedIncr then .error ()
        else .ok ⟨.deniedUA, incrementBlockedCounter s, [], []⟩
      else if env.failRatelimit then .error ()
      else
        let lim := slidingWindowLimit now (rlGet s.rl ip)
        let s1 := { s with rl := rlSet s.rl ip lim.2 }
        if !lim.1 then
          if env.failBlockedIncr then .error ()
          else .ok ⟨.deniedRate, incrementBlockedCounter s1, [], []⟩
        else
          let counted := getAttackCounters s1
          let counters := counted.1
          let s2 := counted.2
          if counters.totalRequests > ATTACK_THRESHOLD then
            let notificationSent := s2.notifFlag
            if jsTruthy notificationSent then .ok ⟨.next, s2, [], []⟩
            else
              let passedRequests : Int :=
                (counters.totalRequests : Int) - (counters.blockedRequests : Int)
              let message : Notification :=
                ⟨toFixed1Tenths counters.totalRequests ATTACK_TIME_WINDOW_SECONDS,
                 counters.totalRequests, counters.blockedRequests, passedRequests⟩
              let dispatched := sendTelegramMessage env message
              let s3 := { s2 with notifFlag := some "true",
                                  notifTTL := some ATTACK_TIME_WINDOW_SECONDS }
              .ok ⟨.next, s3, [message], dispatched⟩
          else .ok ⟨.next, s2, [], []⟩

/-- Run `middleware` `n` times in sequence with the same request (stopping
on a store error), collecting the responses. -/
def runSeq (env : Env) (req : NextRequest) (now : Nat) : Nat → Store → List Response × Store
  | 0, s => ([], s)
  | n + 1, s =>
    match middleware env req now s with
    | .ok r =>
      let rest := runSeq env req now n r.store
      (r.response :: rest.1, rest.2)
    | .error _ => ([], s)

/-! ### Concrete fixtures used by the witnesses -/

/-- Fully configured environment, no injected failures. -/
def envOk : Env := ⟨true, some "token", some "chat", false, false, false⟩

/-- Configured store but no Telegram credentials. -/
def envNoCreds : Env := ⟨true, none, none, false, false, false⟩

/-- Configured store whose rate-limit call fails. -/
def envRlFail : Env := ⟨true, some "token", some "chat", false, false, true⟩

/-- A browser request from an allowed country. -/
def reqChrome : NextRequest := ⟨some "1.2.3.4", some "US", some "Chrome"⟩

/-- A browser request from a blocked country. -/
def reqRU : NextRequest := ⟨some "1.2.3.4", some "RU", some "Chrome"⟩

/-- A script request (identity not on the allow-list), country unset. -/
def reqCurl : NextRequest := ⟨some "1.2.3.4", none, some "curl/8.0"⟩

/-- A store one allowed request away from crossing the attack threshold. -/
def storeHot : Store := { Store.empty with total := some 10000, blocked := some 5 }

end Middleware

namespace Middleware

/-! ### Helper lemmas -/

/-- Projection lemma: `getAttackCounters` returns the incremented total (the read-back after
`INCR` in the sequential model) and the prior blocked value. -/
theorem getAttackCounters_fst (s : Store) :
    (getAttackCounters s).1 = ⟨s.total.getD 0 + 1, s.blocked.getD 0⟩ := rfl

/-- The store after `getAttackCounters`: total incremented, both TTLs armed
via `EXPIRE … NX`, everything else untouched. -/
theorem getAttackCounters_snd (s : Store) :
    (getAttackCounters s).2 =
      { s with total := some (s.total.getD 0 + 1),
               totalTTL := expireNX (some (s.total.getD 0 + 1)) s.totalTTL
                 ATTACK_TIME_WINDOW_SECONDS,
               blockedTTL := expireNX s.blocked s.blockedTTL
                 ATTACK_TIME_WINDOW_SECONDS } := rfl

/-- Round-half-up characterization of the `toFixed(1)` model: the reported
tenths value differs from the exact quotient `10 * n / 60` by at most one
half of a tenth. -/
theorem toFixed1Tenths_round (n : Nat) :
    120 * toFixed1Tenths n ATTACK_TIME_WINDOW_SECONDS ≤ 20 * n + 60 ∧
    20 * n ≤ 120 * toFixed1Tenths n ATTACK_TIME_WINDOW_SECONDS + 60 := by
  unfold toFixed1Tenths ATTACK_TIME_WINDOW_SECONDS
  omega

end Middleware

namespace Middleware

/-! ### C8: fail-open when the store is unconfigured -/

/-- C8: if the store handle is absent at startup, every request is passed
through unchanged: no check runs, no counter or rate-limit state changes,
and no notification is attempted. -/
theorem unconfigured_store_passes_through (env : Env) (req : NextRequest)
    (now : Nat) (s : Store) (h : env.redisConfigured = false) :
    middleware env req now s = .ok ⟨.next, s, [], []⟩ := by
  simp [middleware, h]

/-- Witness for `unconfigured_store_passes_through` at a concrete input. -/
theorem unconfigured_store_passes_through_witness :
    middleware ⟨false, none, none, false, false, false⟩
      ⟨some "1.2.3.4", some "RU", some "curl/8.0"⟩ 0 Store.empty =
      .ok ⟨.next, Store.empty, [], []⟩ :=
  unconfigured_store_passes_through _ _ _ _ rfl

/-! ### C10: allow-path counter reads and their defaults -/

/-- C10: `getAttackCounters` reports `totalRequests` from the separate
read-back of `attack:total` performed after the increment, defaulting to 1
when that read is absent (so the result is always at least 1), and reports
`blockedRequests` as the stored blocked count defaulting to 0 when
`attack:blocked` is absent. -/
theorem getAttackCounters_read_back_defaults (s : Store) :
    (getAttackCounters s).1.totalRequests = (getAttackCounters s).2.total.getD 1 ∧
    (getAttackCounters s).2.total = some (s.total.getD 0 + 1) ∧
    1 ≤ (getAttackCounters s).1.totalRequests ∧
    (getAttackCounters s).1.blockedRequests = s.blocked.getD 0 := by
  refine ⟨rfl, rfl, ?_, rfl⟩
  simp [getAttackCounters]

/-! ### C3: what `recordBlocked` actually touches -/

/-- C3 counterexample: `incrementBlockedCounter` (the blocked-path update,
`recordBlocked` in the spec) does not arm the TTL of `attack:blocked`: on a
store with no TTL set, the TTL stays absent instead of becoming the
detection window. -/
theorem incrementBlockedCounter_no_arming_cex :
    Store.empty.blockedTTL = none ∧
    (incrementBlockedCounter Store.empty).blockedTTL ≠ some ATTACK_TIME_WINDOW_SECONDS := by
  decide

/-- C3 amended: `incrementBlockedCounter` only increments `attack:blocked`,
leaving every TTL (and every other key) untouched; the idempotent
`EXPIRE … NX` arming of `attack:blocked` happens only inside
`getAttackCounters` on the allow path, and only when the key exists. -/
theorem incrementBlockedCounter_increments_only (s : Store) :
    (incrementBlockedCounter s).blocked = some (s.blocked.getD 0 + 1) ∧
    (incrementBlockedCounter s).blockedTTL = s.blockedTTL ∧
    (incrementBlockedCounter s).total = s.total ∧
    (incrementBlockedCounter s).totalTTL = s.totalTTL ∧
    (incrementBlockedCounter s).notifFlag = s.notifFlag ∧
    ((getAttackCounters s).2.blockedTTL =
      if s.blocked.isSome ∧ s.blockedTTL = none then some ATTACK_TIME_WINDOW_SECONDS
      else s.blockedTTL) := by
  refine ⟨rfl, rfl, rfl, rfl, rfl, ?_⟩
  simp only [getAttackCounters_snd, expireNX]
  rcases s.blocked with _ | b <;> rcases h : s.blockedTTL with _ | t <;> simp [h]

/-! ### C7: rate-limit capacity on one client key -/

/-- C7: with the configured capacity of 10 requests per 10-second window,
eleven consecutive requests from one client key that pass the country and
identity checks within one window are admitted for the 1st through 10th and
denied by the rate limiter on the 11th, with status 429. -/
theorem rate_limit_eleventh_denied :
    (runSeq ⟨true, none, none, false, false, false⟩
        ⟨some "9.9.9.9", none, some "Chrome"⟩ 0 11 Store.empty).1 =
      [.next, .next, .next, .next, .next, .next, .next, .next, .next, .next,
       .deniedRate] ∧
    Response.status .deniedRate = some 429 ∧ Response.status .next = none := by
  refine ⟨by decide, rfl, rfl⟩

end Middleware

namespace Middleware

/-! ### More helper lemmas -/

/-- Lemma: `List.any` is invariant under permutation of the list. -/
theorem any_perm_congr {α} (p : α → Bool) {l₁ l₂ : List α} (hp : l₁.Perm l₂) :
    l₁.any p = l₂.any p := by
  induction hp with
  | nil => rfl
  | cons x h ih => simp [ih]
  | swap x y l => cases hx : p x <;> cases hy : p y <;> simp [hx, hy]
  | trans h1 h2 ih1 ih2 => rw [ih1, ih2]

/-- The country check denies with code `c` exactly when the request carries
country `c` and `c` is in the blocked set. -/
theorem blockedCountry_some_iff (req : NextRequest) (c : String) :
    blockedCountry req = some c ↔
      req.country = some c ∧ BLOCKED_COUNTRIES.contains c = true := by
  unfold blockedCountry
  rcases hc : req.country with _ | c' <;> simp [hc]
  constructor
  · rintro ⟨h1, rfl⟩; exact ⟨rfl, h1⟩
  · rintro ⟨rfl, h1⟩; exact ⟨h1, rfl⟩

/-- The country check passes exactly when the carried country (if any) is
not in the blocked set. -/
theorem blockedCountry_none_iff (req : NextRequest) :
    blockedCountry req = none ↔
      ∀ c, req.country = some c → BLOCKED_COUNTRIES.contains c = false := by
  unfold blockedCountry
  rcases hc : req.country with _ | c' <;> simp [hc]

/-- No allow-list entry matches the empty identity string. -/
theorem no_agent_matches_empty_identity :
    (ALLOWED_USER_AGENTS.any fun agent => jsIncludes "" agent) = false := by decide

/-- When the notification flag is truthy, no invocation outcome attempts a
send or touches the flag. -/
theorem middleware_flag_truthy_no_attempt (env : Env) (req : NextRequest)
    (now : Nat) (s : Store) (r : MwResult)
    (hflag : jsTruthy s.notifFlag = true)
    (h : middleware env req now s = .ok r) :
    r.attempted = [] ∧ r.dispatched = [] ∧
    r.store.notifFlag = s.notifFlag ∧ r.store.notifTTL = s.notifTTL := by
  simp only [middleware] at h
  split at h
  · simp only [Except.ok.injEq] at h; subst h; simp
  · split at h
    · split at h
      · exact absurd h (by simp)
      · simp only [Except.ok.injEq] at h; subst h; simp [incrementBlockedCounter]
    · split at h
      · split at h
        · exact absurd h (by simp)
        · simp only [Except.ok.injEq] at h; subst h; simp [incrementBlockedCounter]
      · split at h
        · exact absurd h (by simp)
        · split at h
          · split at h
            · exact absurd h (by simp)
            · simp only [Except.ok.injEq] at h; subst h; simp [incrementBlockedCounter]
          · split at h
            · split at h
              · simp only [Except.ok.injEq] at h; subst h
                simp [getAttackCounters_snd]
              · rename_i hq
                rw [getAttackCounters_snd] at hq
                simp only [jsTruthy] at hq
                simp only [jsTruthy] at hflag
                exact absurd hflag (by simp_all)
            · simp only [Except.ok.injEq] at h; subst h
              simp [getAttackCounters_snd]

/-- Full characterization of the notify branch: checks pass, threshold
crossed, flag falsy. -/
theorem middleware_allow_notify (env : Env) (req : NextRequest) (now : Nat) (s : Store)
    (hcfg : env.redisConfigured = true)
    (hfr : env.failRatelimit = false)
    (hcountry : blockedCountry req = none)
    (hua : (ALLOWED_USER_AGENTS.any fun agent =>
             jsIncludes (req.userAgent.getD "") agent) = true)
    (hrl : (slidingWindowLimit now (rlGet s.rl (req.ip.getD "127.0.0.1"))).1 = true)
    (hthr : s.total.getD 0 + 1 > ATTACK_THRESHOLD)
    (hflag : jsTruthy s.notifFlag = false) :
    middleware env req now s =
      .ok ⟨.next,
           { s with rl := rlSet s.rl (req.ip.getD "127.0.0.1")
                      (slidingWindowLimit now (rlGet s.rl (req.ip.getD "127.0.0.1"))).2,
                    total := some (s.total.getD 0 + 1),
                    totalTTL := expireNX (some (s.total.getD 0 + 1)) s.totalTTL
                      ATTACK_TIME_WINDOW_SECONDS,
                    blockedTTL := expireNX s.blocked s.blockedTTL ATTACK_TIME_WINDOW_SECONDS,
                    notifFlag := some "true",
                    notifTTL := some ATTACK_TIME_WINDOW_SECONDS },
           [⟨toFixed1Tenths (s.total.getD 0 + 1) ATTACK_TIME_WINDOW_SECONDS,
             s.total.getD 0 + 1, s.blocked.getD 0,
             ((s.total.getD 0 + 1 : Nat) : Int) - ((s.blocked.getD 0 : Nat) : Int)⟩],
           sendTelegramMessage env
             ⟨toFixed1Tenths (s.total.getD 0 + 1) ATTACK_TIME_WINDOW_SECONDS,
              s.total.getD 0 + 1, s.blocked.getD 0,
              ((s.total.getD 0 + 1 : Nat) : Int) - ((s.blocked.getD 0 : Nat) : Int)⟩⟩ := by
  simp [middleware, hcfg, hcountry, hua, hfr, hrl, hflag, hthr,
        getAttackCounters_snd, getAttackCounters_fst]

/-- A `deniedCountry` response arises exactly when the country check fires. -/
theorem middleware_deniedCountry_iff (env : Env) (req : NextRequest) (now : Nat)
    (s : Store) (r : MwResult)
    (hcfg : env.redisConfigured = true)
    (h : middleware env req now s = .ok r) :
    (∃ c, r.response = .deniedCountry c) ↔ ∃ c, blockedCountry req = some c := by
  simp only [middleware, hcfg] at h
  rw [if_neg (by simp)] at h
  split at h
  case _ c heq =>
    split at h
    · exact absurd h (by simp)
    · simp only [Except.ok.injEq] at h; subst h
      exact ⟨fun _ => ⟨c, heq⟩, fun _ => ⟨c, rfl⟩⟩
  case _ heq =>
    constructor
    · rintro ⟨c, hc⟩
      exfalso
      split at h
      · split at h
        · exact absurd h (by simp)
        · simp only [Except.ok.injEq] at h; subst h; simp at hc
      · split at h
        · exact absurd h (by simp)
        · split at h
          · split at h
            · exact absurd h (by simp)
            · simp only [Except.ok.injEq] at h; subst h; simp at hc
          · split at h
            · split at h
              · simp only [Except.ok.injEq] at h; subst h; simp at hc
              · simp only [Except.ok.injEq] at h; subst h; simp at hc
            · simp only [Except.ok.injEq] at h; subst h; simp at hc
    · rintro ⟨c, hc⟩
      rw [heq] at hc
      cases hc

/-- Past the country check, a `deniedUA` response arises exactly when no
allow-list entry matches the identity string. -/
theorem middleware_deniedUA_iff (env : Env) (req : NextRequest) (now : Nat)
    (s : Store) (r : MwResult)
    (hcfg : env.redisConfigured = true)
    (hcountry : blockedCountry req = none)
    (h : middleware env req now s = .ok r) :
    (r.response = .deniedUA ↔
      (ALLOWED_USER_AGENTS.any fun agent =>
        jsIncludes (req.userAgent.getD "") agent) = false) := by
  simp only [middleware, hcfg, hcountry] at h
  rw [if_neg (by simp)] at h
  split at h
  case _ hua =>
    split at h
    · exact absurd h (by simp)
    · simp only [Except.ok.injEq] at h; subst h
      simp only [Bool.not_eq_true'] at hua
      simp [hua]
  case _ hua =>
    simp only [Bool.not_eq_true', Bool.not_eq_false] at hua
    rw [hua]
    simp only [Bool.true_eq_false, iff_false]
    split at h
    · exact absurd h (by simp)
    · split at h
      · split at h
        · exact absurd h (by simp)
        · simp only [Except.ok.injEq] at h; subst h; simp
      · split at h
        · split at h
          · simp only [Except.ok.injEq] at h; subst h; simp
          · simp only [Except.ok.injEq] at h; subst h; simp
        · simp only [Except.ok.injEq] at h; subst h; simp

end Middleware

namespace Middleware

/-! ### C2: counter effects of deny and allow paths -/

/-- C2: with the store configured, any denial increments `attack:blocked`
exactly once, leaves `attack:total` (value and TTL) untouched, and returns
at once without evaluating the notification (nothing attempted, flag
untouched); any allowed request increments `attack:total` exactly once and
leaves the blocked value untouched. -/
theorem deny_allow_counter_effects (env : Env) (req : NextRequest) (now : Nat)
    (s : Store) (r : MwResult)
    (hcfg : env.redisConfigured = true)
    (h : middleware env req now s = .ok r) :
    (r.response ≠ .next →
       r.store.blocked = some (s.blocked.getD 0 + 1) ∧
       r.store.total = s.total ∧ r.store.totalTTL = s.totalTTL ∧
       r.attempted = [] ∧ r.dispatched = [] ∧
       r.store.notifFlag = s.notifFlag ∧ r.store.notifTTL = s.notifTTL) ∧
    (r.response = .next →
       r.store.total = some (s.total.getD 0 + 1) ∧
       r.store.blocked = s.blocked) := by
  unfold middleware at h
  rw [hcfg] at h
  simp only [Bool.not_true] at h
  rw [if_neg (by simp)] at h
  split at h
  case _ c heq =>
    split at h
    · exact absurd h (by simp)
    · simp only [Except.ok.injEq] at h
      subst h
      simp [incrementBlockedCounter]
  case _ heq =>
    split at h
    · split at h
      · exact absurd h (by simp)
      · simp only [Except.ok.injEq] at h
        subst h
        simp [incrementBlockedCounter]
    · split at h
      · exact absurd h (by simp)
      · split at h
        · split at h
          · exact absurd h (by simp)
          · simp only [Except.ok.injEq] at h
            subst h
            simp [incrementBlockedCounter]
        · split at h
          · split at h
            · simp only [Except.ok.injEq] at h
              subst h
              simp [getAttackCounters_snd, getAttackCounters_fst]
            · simp only [Except.ok.injEq] at h
              subst h
              simp [getAttackCounters_snd, getAttackCounters_fst]
          · simp only [Except.ok.injEq] at h
            subst h
            simp [getAttackCounters_snd, getAttackCounters_fst]

/-- Witness for `deny_allow_counter_effects`: a request from a blocked
country on the empty store. -/
theorem deny_allow_counter_effects_witness :
    (Response.deniedCountry "RU" ≠ Response.next →
       (incrementBlockedCounter Store.empty).blocked = some 1 ∧
       (incrementBlockedCounter Store.empty).total = none ∧
       (incrementBlockedCounter Store.empty).totalTTL = none ∧
       ([] : List Notification) = [] ∧ ([] : List Notification) = [] ∧
       (incrementBlockedCounter Store.empty).notifFlag = none ∧
       (incrementBlockedCounter Store.empty).notifTTL = none) ∧
    (Response.deniedCountry "RU" = Response.next →
       (incrementBlockedCounter Store.empty).total = some 1 ∧
       (incrementBlockedCounter Store.empty).blocked = none) :=
  deny_allow_counter_effects envOk reqRU 0 Store.empty
    ⟨.deniedCountry "RU", incrementBlockedCounter Store.empty, [], []⟩ rfl rfl

/-! ### C5: the country check -/

/-- C5: with the store configured, an invocation that completes responds
with the country denial (status 403) exactly when the request's country is
present and in the blocked set; a request without country information is
never denied by the country check. -/
theorem country_block_403_iff (env : Env) (req : NextRequest) (now : Nat)
    (s : Store) (r : MwResult)
    (hcfg : env.redisConfigured = true)
    (h : middleware env req now s = .ok r) :
    ((∃ c, r.response = .deniedCountry c) ↔
      ∃ c, req.country = some c ∧ BLOCKED_COUNTRIES.contains c = true) ∧
    (∀ c, r.response = .deniedCountry c → r.response.status = some 403) ∧
    (req.country = none → ∀ c, r.response ≠ .deniedCountry c) := by
  have hiff := middleware_deniedCountry_iff env req now s r hcfg h
  refine ⟨?_, ?_, ?_⟩
  · rw [hiff]
    constructor
    · rintro ⟨c, hc⟩; exact ⟨c, (blockedCountry_some_iff req c).mp hc⟩
    · rintro ⟨c, hc, hb⟩; exact ⟨c, (blockedCountry_some_iff req c).mpr ⟨hc, hb⟩⟩
  · intro c hc; rw [hc]; rfl
  · intro hnone c hc
    obtain ⟨c', hc'⟩ := hiff.mp ⟨c, hc⟩
    obtain ⟨hcc, _⟩ := (blockedCountry_some_iff req c').mp hc'
    rw [hnone] at hcc
    cases hcc

/-- Witness for `country_block_403_iff`: the blocked-country request. -/
theorem country_block_403_iff_witness :
    ((∃ c, Response.deniedCountry "RU" = Response.deniedCountry c) ↔
      ∃ c, reqRU.country = some c ∧ BLOCKED_COUNTRIES.contains c = true) ∧
    (∀ c, Response.deniedCountry "RU" = Response.deniedCountry c →
      (Response.deniedCountry "RU").status = some 403) ∧
    (reqRU.country = none → ∀ c, Response.deniedCountry "RU" ≠ Response.deniedCountry c) :=
  country_block_403_iff envOk reqRU 0 Store.empty
    ⟨.deniedCountry "RU", incrementBlockedCounter Store.empty, [], []⟩ rfl rfl

end Middleware

namespace Middleware

/-! ### C6: the identity (User-Agent) allow-list check -/

/-- C6: past the country check, a completed invocation responds with the
identity denial (status 403) exactly when no allow-list entry is a
case-sensitive substring of the identity string; the outcome is invariant
under permutation of the allow-list, and an empty or missing identity
string is denied. -/
theorem identity_allowlist_403_iff (env : Env) (req : NextRequest) (now : Nat)
    (s : Store) (r : MwResult)
    (hcfg : env.redisConfigured = true)
    (hcountry : blockedCountry req = none)
    (h : middleware env req now s = .ok r) :
    (r.response = .deniedUA ↔
      ¬ ∃ agent ∈ ALLOWED_USER_AGENTS,
          jsIncludes (req.userAgent.getD "") agent = true) ∧
    (r.response = .deniedUA → r.response.status = some 403) ∧
    (∀ l : List String, l.Perm ALLOWED_USER_AGENTS →
      (l.any fun agent => jsIncludes (req.userAgent.getD "") agent) =
        (ALLOWED_USER_AGENTS.any fun agent => jsIncludes (req.userAgent.getD "") agent)) ∧
    (req.userAgent.getD "" = "" → r.response = .deniedUA) := by
  have hiff := middleware_deniedUA_iff env req now s r hcfg hcountry h
  refine ⟨?_, ?_, ?_, ?_⟩
  · rw [hiff]
    constructor
    · intro hf hex
      obtain ⟨a, ha, hpa⟩ := hex
      have := List.any_eq_true.mpr ⟨a, ha, hpa⟩
      rw [hf] at this
      cases this
    · intro hn
      cases hx : (ALLOWED_USER_AGENTS.any fun agent => jsIncludes (req.userAgent.getD "") agent)
      · rfl
      · exact absurd (List.any_eq_true.mp hx) hn
  · intro hd; rw [hd]; rfl
  · intro l hl; exact any_perm_congr _ hl
  · intro hua0
    rw [hiff, hua0]
    exact no_agent_matches_empty_identity

/-- Witness for `identity_allowlist_403_iff`: a `curl/8.0` identity with
country unset. -/
theorem identity_allowlist_403_iff_witness :
    (Response.deniedUA = Response.deniedUA ↔
      ¬ ∃ agent ∈ ALLOWED_USER_AGENTS,
          jsIncludes (reqCurl.userAgent.getD "") agent = true) ∧
    (Response.deniedUA = Response.deniedUA →
      Response.status Response.deniedUA = some 403) ∧
    (∀ l : List String, l.Perm ALLOWED_USER_AGENTS →
      (l.any fun agent => jsIncludes (reqCurl.userAgent.getD "") agent) =
        (ALLOWED_USER_AGENTS.any fun agent => jsIncludes (reqCurl.userAgent.getD "") agent)) ∧
    (reqCurl.userAgent.getD "" = "" → Response.deniedUA = Response.deniedUA) :=
  identity_allowlist_403_iff envOk reqCurl 0 Store.empty
    ⟨.deniedUA, incrementBlockedCounter Store.empty, [], []⟩ rfl rfl rfl

end Middleware

namespace Middleware

/-! ### C1: one-shot notification on the allow path -/

/-- C1: on the allow path, when the read-back total exceeds the attack
threshold and the notification flag is absent, exactly one notification is
composed and sent, with `passed = total - blocked` and strength
`total / 60` rounded to one decimal place, and then the flag is set with
TTL equal to the 60-second detection window; if the flag is already set,
nothing is sent and the flag (and its TTL) is untouched. -/
theorem threshold_crossing_notifies_once (env : Env) (req : NextRequest)
    (now : Nat) (s : Store)
    (hcfg : env.redisConfigured = true)
    (hfr : env.failRatelimit = false)
    (hcountry : blockedCountry req = none)
    (hua : (ALLOWED_USER_AGENTS.any fun agent =>
             jsIncludes (req.userAgent.getD "") agent) = true)
    (hrl : (slidingWindowLimit now (rlGet s.rl (req.ip.getD "127.0.0.1"))).1 = true)
    (hthr : s.total.getD 0 + 1 > ATTACK_THRESHOLD) :
    (s.notifFlag = none →
      ∃ r, middleware env req now s = .ok r ∧
        r.attempted = [⟨toFixed1Tenths (s.total.getD 0 + 1) ATTACK_TIME_WINDOW_SECONDS,
                        s.total.getD 0 + 1, s.blocked.getD 0,
                        ((s.total.getD 0 + 1 : Nat) : Int) - ((s.blocked.getD 0 : Nat) : Int)⟩] ∧
        r.store.notifFlag = some "true" ∧
        r.store.notifTTL = some ATTACK_TIME_WINDOW_SECONDS ∧
        r.response = .next ∧
        120 * toFixed1Tenths (s.total.getD 0 + 1) ATTACK_TIME_WINDOW_SECONDS ≤
          20 * (s.total.getD 0 + 1) + 60 ∧
        20 * (s.total.getD 0 + 1) ≤
          120 * toFixed1Tenths (s.total.getD 0 + 1) ATTACK_TIME_WINDOW_SECONDS + 60) ∧
    (∀ s2 r2, s2.notifFlag = some "true" → middleware env req now s2 = .ok r2 →
        r2.attempted = [] ∧ r2.dispatched = [] ∧
        r2.store.notifFlag = s2.notifFlag ∧ r2.store.notifTTL = s2.notifTTL) := by
  constructor
  · intro hf
    exact ⟨_, middleware_allow_notify env req now s hcfg hfr hcountry hua hrl hthr
             (by rw [hf]; rfl),
           rfl, rfl, rfl, rfl,
           (toFixed1Tenths_round (s.total.getD 0 + 1)).1,
           (toFixed1Tenths_round (s.total.getD 0 + 1)).2⟩
  · intro s2 r2 hf2 h2
    exact middleware_flag_truthy_no_attempt env req now s2 r2 (by rw [hf2]; rfl) h2

/-- Witness for `threshold_crossing_notifies_once`: an allowed browser
request pushing the total to 10001. -/
theorem threshold_crossing_notifies_once_witness :
    (storeHot.notifFlag = none →
      ∃ r, middleware envOk reqChrome 0 storeHot = .ok r ∧
        r.attempted = [⟨toFixed1Tenths 10001 ATTACK_TIME_WINDOW_SECONDS, 10001, 5,
                        ((10001 : Nat) : Int) - ((5 : Nat) : Int)⟩] ∧
        r.store.notifFlag = some "true" ∧
        r.store.notifTTL = some ATTACK_TIME_WINDOW_SECONDS ∧
        r.response = .next ∧
        120 * toFixed1Tenths 10001 ATTACK_TIME_WINDOW_SECONDS ≤ 20 * 10001 + 60 ∧
        20 * 10001 ≤ 120 * toFixed1Tenths 10001 ATTACK_TIME_WINDOW_SECONDS + 60) ∧
    (∀ s2 r2, s2.notifFlag = some "true" → middleware envOk reqChrome 0 s2 = .ok r2 →
        r2.attempted = [] ∧ r2.dispatched = [] ∧
        r2.store.notifFlag = s2.notifFlag ∧ r2.store.notifTTL = s2.notifTTL) :=
  threshold_crossing_notifies_once envOk reqChrome 0 storeHot rfl rfl rfl rfl rfl
    (by decide)

/-! ### C9: flag is set even when delivery is skipped or fails -/

/-- C9: when the threshold is crossed and the flag is absent, the flag is
set with its TTL even if the Telegram credentials are missing or the fetch
fails (nothing is dispatched), and afterwards any state with the flag set
suppresses every further alert attempt. -/
theorem failed_send_still_sets_flag (env : Env) (req : NextRequest)
    (now : Nat) (s : Store)
    (hcfg : env.redisConfigured = true)
    (hfr : env.failRatelimit = false)
    (hcountry : blockedCountry req = none)
    (hua : (ALLOWED_USER_AGENTS.any fun agent =>
             jsIncludes (req.userAgent.getD "") agent) = true)
    (hrl : (slidingWindowLimit now (rlGet s.rl (req.ip.getD "127.0.0.1"))).1 = true)
    (hthr : s.total.getD 0 + 1 > ATTACK_THRESHOLD)
    (hf : s.notifFlag = none)
    (hcreds : env.tgToken = none ∨ env.tgChatId = none ∨ env.fetchFails = true) :
    (∃ r, middleware env req now s = .ok r ∧
       r.store.notifFlag = some "true" ∧
       r.store.notifTTL = some ATTACK_TIME_WINDOW_SECONDS ∧
       r.attempted.length = 1 ∧ r.dispatched = []) ∧
    (∀ s2 r2, jsTruthy s2.notifFlag = true → middleware env req now s2 = .ok r2 →
       r2.attempted = [] ∧ r2.dispatched = []) := by
  constructor
  · refine ⟨_, middleware_allow_notify env req now s hcfg hfr hcountry hua hrl hthr
             (by rw [hf]; rfl), rfl, rfl, rfl, ?_⟩
    show sendTelegramMessage env _ = []
    rcases hcreds with hc | hc | hc <;> simp [sendTelegramMessage, hc, jsTruthy]
  · intro s2 r2 hf2 h2
    exact ⟨(middleware_flag_truthy_no_attempt env req now s2 r2 hf2 h2).1,
           (middleware_flag_truthy_no_attempt env req now s2 r2 hf2 h2).2.1⟩

/-- Witness for `failed_send_still_sets_flag`: threshold crossed with no
Telegram credentials configured. -/
theorem failed_send_still_sets_flag_witness :
    (∃ r, middleware envNoCreds reqChrome 0 storeHot = .ok r ∧
       r.store.notifFlag = some "true" ∧
       r.store.notifTTL = some ATTACK_TIME_WINDOW_SECONDS ∧
       r.attempted.length = 1 ∧ r.dispatched = []) ∧
    (∀ s2 r2, jsTruthy s2.notifFlag = true →
       middleware envNoCreds reqChrome 0 s2 = .ok r2 →
       r2.attempted = [] ∧ r2.dispatched = []) :=
  failed_send_still_sets_flag envNoCreds reqChrome 0 storeHot rfl rfl rfl rfl rfl
    (by decide) rfl (Or.inl rfl)

/-! ### C4: there is no per-call fail-open for failing store calls -/

/-- C4 counterexample: a failing rate-limit store call on an otherwise
passing request does not let the request proceed with the check skipped —
the middleware invocation itself fails (the rejection propagates), which is
neither a pass-through nor one of the three defined status codes. -/
theorem store_failure_not_fail_open_cex :
    envRlFail.failRatelimit = true ∧
    middleware envRlFail reqChrome 0 Store.empty = .error () := ⟨rfl, rfl⟩

/-- C4 amended: a store-call failure during the checks propagates out of
`middleware` as an error: with the store configured and a request passing
the country and identity checks, a failing `ratelimit.limit` call makes the
whole invocation fail instead of allowing the request with the check
skipped (there is no try/catch or timeout handling around check-path store
calls in the source). -/
theorem store_failure_propagates (env : Env) (req : NextRequest) (now : Nat)
    (s : Store)
    (hcfg : env.redisConfigured = true)
    (hfr : env.failRatelimit = true)
    (hcountry : blockedCountry req = none)
    (hua : (ALLOWED_USER_AGENTS.any fun agent =>
             jsIncludes (req.userAgent.getD "") agent) = true) :
    middleware env req now s = .error () := by
  simp [middleware, hcfg, hcountry, hua, hfr]

/-- Witness for `store_failure_propagates`. -/
theorem store_failure_propagates_witness :
    middleware envRlFail reqChrome 0 Store.empty = .error () :=
  store_failure_propagates envRlFail reqChrome 0 Store.empty rfl rfl rfl rfl

end Middleware
